import Mathlib

set_option maxHeartbeats 1000000

namespace OGProtocol

/-!
Shallow embedding of the session/token subsystem of `src/backend/sessionManager.js`.
Time is modelled as milliseconds since the epoch (an `Int`); the JS code stores
timestamps as ISO strings with millisecond precision and compares them through
`Date.getTime()`, which round-trips exactly, so integer milliseconds are faithful.
JavaScript objects used as maps are modelled as association lists keyed by `String`
in insertion order; remote HTTP interactions are modelled by outcome oracles held
in an explicit state, and a trace of performed calls is threaded for the claims
about which remote calls happen.
-/

/-- JSON-like values as produced by `JSON.parse`. A response body that fails to parse
is kept as its raw text by the code (`parsed = bodyText`), which we represent with
the `str` constructor: property access on a JS string primitive yields `undefined`
for all the property names this code reads, matching `getProp` below. -/
inductive JsVal where
  | null : JsVal
  | bool (b : Bool) : JsVal
  | num (n : Int) : JsVal
  | str (s : String) : JsVal
  | arr (xs : List JsVal) : JsVal
  | obj (fields : List (String × JsVal)) : JsVal
deriving Repr

/-- JavaScript truthiness of a value (numbers other than 0 are truthy; NaN is not
modelled since no code path here produces it). -/
def jsTruthy : JsVal → Bool
  | .null => false
  | .bool b => b
  | .num n => n != 0
  | .str s => s != ""
  | .arr _ => true
  | .obj _ => true

/-- Property access `v.k`: the field of an object when present, `undefined` (none)
otherwise (including access on non-objects, which yields undefined for the
property names read by this code). -/
def getProp : JsVal → String → Option JsVal
  | .obj fields, k => (fields.find? (fun p => p.1 == k)).map (fun p => p.2)
  | _, _ => none

/-- Optional-chaining property access `v?.k` on a possibly absent value. -/
def optProp (v : Option JsVal) (k : String) : Option JsVal :=
  v.bind (fun x => getProp x k)

/-- JavaScript `a || b` at the level of possibly-undefined values: the first operand
when it is present and truthy, otherwise the second operand. -/
def jsOr (a b : Option JsVal) : Option JsVal :=
  match a with
  | some v => if jsTruthy v then some v else b
  | none => b

/-- Falsiness of a possibly-undefined value (`!x` in JS). -/
def jsFalsyOpt (v : Option JsVal) : Bool :=
  match v with
  | none => true
  | some x => !jsTruthy x

/-- Model of `String(v)` / template-literal interpolation of a value. Arrays and objects are
approximated by fixed markers; no claim depends on their stringification. -/
def jsToStr : JsVal → String
  | .null => "null"
  | .bool b => if b then "true" else "false"
  | .num n => toString n
  | .str s => s
  | .arr _ => "[array]"
  | .obj _ => "[object Object]"

/-- Falsiness of a possibly-unset environment string (`!ARKACDN_TOKEN` in JS):
unset variables are undefined, and the empty string is also falsy. -/
def jsFalsyStr : Option String → Bool
  | none => true
  | some s => s == ""

/-- Template interpolation of a possibly-null string
(interpolating `null` prints the text null). -/
def textOrNull : Option String → String
  | none => "null"
  | some s => s

/-- JS object update `m[k] = v`: overwrite in place when the key is present,
append otherwise (JS objects keep insertion order). -/
def setKey {α : Type} (m : List (String × α)) (k : String) (v : α) : List (String × α) :=
  if m.any (fun p => p.1 == k) then
    m.map (fun p => if p.1 == k then (k, v) else p)
  else m ++ [(k, v)]

/-- JS object read `m[k]`: the value stored under the key, if any. -/
def lookupKey {α : Type} (m : List (String × α)) (k : String) : Option α :=
  (m.find? (fun p => p.1 == k)).map (fun p => p.2)

theorem mem_setKey {α : Type} (m : List (String × α)) (k : String) (v : α)
    (p : String × α) (hp : p ∈ setKey m k v) :
    p = (k, v) ∨ (p ∈ m ∧ p.1 ≠ k) := by
  unfold setKey at hp
  split at hp
  · rcases List.mem_map.mp hp with ⟨q, hq, hfq⟩
    by_cases hk : q.1 == k
    · rw [if_pos hk] at hfq
      exact Or.inl hfq.symm
    · rw [if_neg hk] at hfq
      refine Or.inr ⟨hfq ▸ hq, ?_⟩
      rw [← hfq]
      simpa using hk
  · next hany =>
    rcases List.mem_append.mp hp with h | h
    · refine Or.inr ⟨h, ?_⟩
      intro hk
      exact hany (List.any_eq_true.mpr ⟨p, h, by simpa using hk⟩)
    · exact Or.inl (List.mem_singleton.mp h)

theorem lookupKey_eq_none {α : Type} (m : List (String × α)) (k : String)
    (h : ∀ p ∈ m, p.1 ≠ k) : lookupKey m k = none := by
  have hf : m.find? (fun p => p.1 == k) = none :=
    List.find?_eq_none.mpr (fun p hp => by simpa using h p hp)
  simp [lookupKey, hf]

theorem lookupKey_setKey_self {α : Type} (m : List (String × α)) (k : String) (v : α) :
    lookupKey (setKey m k v) k = some v := by
  unfold setKey lookupKey
  split
  · next hany =>
    induction m with
    | nil => simp at hany
    | cons q rest ih =>
      by_cases hk : q.1 == k
      · simp [List.find?, hk]
      · have hany2 : rest.any (fun p => p.1 == k) = true := by
          rcases List.any_eq_true.mp hany with ⟨x, hx, hxk⟩
          rcases List.mem_cons.mp hx with rfl | hx2
          · exact absurd hxk hk
          · exact List.any_eq_true.mpr ⟨x, hx2, hxk⟩
        simpa [List.find?, hk] using ih hany2
  · next hany =>
    induction m with
    | nil => simp [List.find?]
    | cons q rest ih =>
      have hqk : (q.1 == k) = false := by
        by_contra hc
        exact hany (List.any_eq_true.mpr ⟨q, List.mem_cons_self _ _, by
          cases h2 : q.1 == k
          · exact absurd h2 (by simpa using hc)
          · simp⟩)
      have hany2 : ¬ rest.any (fun p => p.1 == k) = true := by
        intro hc
        rcases List.any_eq_true.mp hc with ⟨x, hx, hxk⟩
        exact hany (List.any_eq_true.mpr ⟨x, List.mem_cons_of_mem _ hx, hxk⟩)
      simpa [List.find?, hqk] using ih hany2

/-! ## Token store (sessionManager.js lines 13-92) -/

/-- Token time-to-live: 3 minutes, in milliseconds (line 17). -/
def SESSION_TTL_MS : Int := 3 * 60 * 1000

/-- A record stored in `tokens.json` under a token uuid (line 63). -/
structure TokenRec where
  username : String
  data : JsVal
  createdAt : Int
  expiresAt : Int
deriving Repr

/-- The on-disk tokens map. -/
abbrev TokenMap := List (String × TokenRec)

/-- The value returned by a successful `getToken` (line 81). -/
structure Token where
  uuid : String
  username : String
  data : JsVal
  createdAt : Int
  expiresAt : Int
deriving Repr

/-- Model of `createToken` (lines 50-66): throws when the username is falsy, removes every
record owned by that username, then stores a fresh record under the supplied uuid
with `expiresAt = now + SESSION_TTL_MS`. The fresh uuid (from `randomUUID`) and the
current time are explicit arguments. Returns the uuid together with the new map. -/
def createToken (username : String) (data : JsVal) (uuid : String) (now : Int)
    (m : TokenMap) : Except String (String × TokenMap) :=
  if username == "" then
    .error "username (string) is required to create a session"
  else
    let m1 := m.filter (fun p => !(p.2.username == username))
    let tk : TokenRec :=
      { username := username, data := data, createdAt := now, expiresAt := now + SESSION_TTL_MS }
    .ok (uuid, setKey m1 uuid tk)

/-- Model of `getToken` (lines 71-82): null for an empty or unknown id; when `now` is strictly
past `expiresAt` the record is deleted from the map and null is returned; otherwise
the token is returned and the map is unchanged. -/
def getToken (uuid : String) (now : Int) (m : TokenMap) : Option Token × TokenMap :=
  if uuid == "" then (none, m)
  else
    match lookupKey m uuid with
    | none => (none, m)
    | some tk =>
      if now > tk.expiresAt then
        (none, m.filter (fun p => !(p.1 == uuid)))
      else
        (some { uuid := uuid, username := tk.username, data := tk.data,
                createdAt := tk.createdAt, expiresAt := tk.expiresAt }, m)

/-- Model of `deleteToken` (lines 84-90): removes the record if present and reports whether
it existed. -/
def deleteToken (uuid : String) (m : TokenMap) : Bool × TokenMap :=
  match lookupKey m uuid with
  | none => (false, m)
  | some _ => (true, m.filter (fun p => !(p.1 == uuid)))

/-! ## Remote-call model and process state (sessionManager.js lines 18-21, 94-307) -/

/-- Outcome of one remote HTTP call as supplied by the environment: the promise may
reject (network/transport exception), or resolve to a response with a status code, a
body text (`none` when `res.text()` itself rejects, which the code collapses to null)
and the `JSON.parse` of that text (`none` for a null/empty body; a body that does not
parse is kept as its raw `.str` text, exactly as the catch branches do). For the one
call read through `res.json()` instead, `none` parsed means `res.json()` rejects. -/
inductive CallOutcome where
  | throws : CallOutcome
  | resp (status : Int) (text : Option String) (parsed : Option JsVal) : CallOutcome
deriving Repr

/-- The `Response.ok` flag of the fetch API: status in the 2xx range. -/
def respOk (status : Int) : Bool := 200 ≤ status && status < 300

/-- Events recorded while running the session manager, in order: an invocation of
`attemptRefresh`, an actual POST to the refresh endpoint, one `doUpload` POST, the
read-back GET of `registerSession`, and the session-content GET of
`getSessionForUsername`. -/
inductive Event where
  | refreshAttempt : Event
  | refreshFetch : Event
  | upload : Event
  | verifyFetch : Event
  | sessionFetch (fileId : String) : Event
deriving Repr, DecidableEq

/-- Immutable configuration of the process (lines 18-20): whether a global `fetch`
exists, whether the dynamic import of node-fetch would succeed, `ARKACDN_URL`
(defaulted, hence non-empty in practice) and `ARKACDN_REFRESH_TOKEN`. -/
structure Env where
  fetchAvailable : Bool
  nodeFetchImportable : Bool
  arkacdnUrl : String
  refreshToken : Option String
deriving Repr, DecidableEq

/-- Mutable process state threaded through the session manager: the process-wide
`ARKACDN_TOKEN`, the oracle outcomes the environment will give to successive refresh
and upload calls, the outcome of the read-back verification fetch, and the trace of
events performed so far. -/
structure St where
  arkToken : Option String
  refreshOutcomes : List CallOutcome
  uploadOutcomes : List CallOutcome
  verifyOutcome : CallOutcome
  calls : List Event
deriving Repr

/-- Consume the next oracle outcome (an exhausted oracle keeps rejecting). -/
def nextOutcome : List CallOutcome → CallOutcome × List CallOutcome
  | [] => (.throws, [])
  | o :: rest => (o, rest)

/-- The new access credential extracted from a refresh response body (lines 286-287):
`parsed && (parsed.accessToken || parsed.access_token || parsed.token)`, accepted only
when truthy and a string. -/
def refreshNewToken (parsed : Option JsVal) : Option String :=
  match jsOr (jsOr (optProp parsed "accessToken") (optProp parsed "access_token"))
      (optProp parsed "token") with
  | some (.str s) => if s == "" then none else some s
  | _ => none

/-- Model of `attemptRefresh` (lines 265-296). The fetch-availability check (lines 268-276)
precedes everything and throws when no fetch implementation is obtainable; with a
falsy refresh credential it returns false without any remote call; a transport
exception during the refresh POST is caught and reported as false; a response body
carrying a truthy string access credential replaces the process-wide credential and
yields true; otherwise the `Response.ok` boolean of the refresh response is
returned. -/
def attemptRefresh (env : Env) (st : St) : Except String Bool × St :=
  if !env.fetchAvailable && !env.nodeFetchImportable then
    (.error "fetch is not available and node-fetch could not be imported",
     { st with calls := st.calls ++ [.refreshAttempt] })
  else if jsFalsyStr env.refreshToken then
    (.ok false, { st with calls := st.calls ++ [.refreshAttempt] })
  else
    match nextOutcome st.refreshOutcomes with
    | (.throws, rest) =>
      (.ok false, { st with refreshOutcomes := rest, calls := st.calls ++ [.refreshAttempt, .refreshFetch] })
    | (.resp status _text parsed, rest) =>
      match refreshNewToken parsed with
      | some s =>
        (.ok true, { st with arkToken := some s, refreshOutcomes := rest, calls := st.calls ++ [.refreshAttempt, .refreshFetch] })
      | none =>
        (.ok (respOk status), { st with refreshOutcomes := rest, calls := st.calls ++ [.refreshAttempt, .refreshFetch] })

/-! ## Claims about the Remote Auth Refresher -/

/-- Concrete environment with no fetch implementation obtainable and no refresh
credential configured. -/
def c3env : Env :=
  { fetchAvailable := false, nodeFetchImportable := false,
    arkacdnUrl := "https://arkacdn.cloudycoding.com/api", refreshToken := none }

/-- Concrete initial process state for the C3 counterexample. -/
def c3st : St :=
  { arkToken := none, refreshOutcomes := [], uploadOutcomes := [],
    verifyOutcome := .throws, calls := [] }

/-- C3 counterexample: with neither a global fetch nor an importable node-fetch, and
no refresh credential configured, `attemptRefresh` throws (the availability check at
lines 268-276 precedes the no-credential early return at line 277) instead of
returning false as the claim requires. -/
theorem claim_C3_counterexample :
    (attemptRefresh c3env c3st).1 =
      .error "fetch is not available and node-fetch could not be imported" := rfl

/-- C3 amended: provided a fetch implementation is obtainable (a global fetch exists
or node-fetch is importable), `attemptRefresh` never throws; if no refresh credential
is configured it returns false (with no remote call recorded); a transport exception
is caught and false is returned; if the response body contains a new access credential
string the process-wide credential is replaced and true is returned; otherwise the
HTTP-success boolean of the response is returned. -/
theorem claim_C3_amended (env : Env) (st : St)
    (hf : (env.fetchAvailable || env.nodeFetchImportable) = true) :
    (∃ b st2, attemptRefresh env st = (.ok b, st2)) ∧
    (jsFalsyStr env.refreshToken = true →
      attemptRefresh env st =
        (.ok false, { st with calls := st.calls ++ [.refreshAttempt] })) ∧
    (jsFalsyStr env.refreshToken = false →
      ((nextOutcome st.refreshOutcomes).1 = .throws →
        (attemptRefresh env st).1 = .ok false) ∧
      (∀ status text parsed,
        (nextOutcome st.refreshOutcomes).1 = .resp status text parsed →
        (∀ s, refreshNewToken parsed = some s →
          (attemptRefresh env st).1 = .ok true ∧
          (attemptRefresh env st).2.arkToken = some s) ∧
        (refreshNewToken parsed = none →
          (attemptRefresh env st).1 = .ok (respOk status)))) := by
  have hcond : (!env.fetchAvailable && !env.nodeFetchImportable) = false := by
    cases ha : env.fetchAvailable <;> cases hb : env.nodeFetchImportable <;>
      simp_all
  refine ⟨?_, ?_, ?_⟩
  · by_cases hr : jsFalsyStr env.refreshToken
    · exact ⟨false, { st with calls := st.calls ++ [.refreshAttempt] },
        by simp [attemptRefresh, hcond, hr]⟩
    · rcases ho : nextOutcome st.refreshOutcomes with ⟨o, rest⟩
      cases o with
      | throws =>
        exact ⟨false,
          { st with refreshOutcomes := rest, calls := st.calls ++ [.refreshAttempt, .refreshFetch] },
          by simp [attemptRefresh, hcond, hr, ho]⟩
      | resp status text parsed =>
        cases hn : refreshNewToken parsed with
        | none =>
          exact ⟨respOk status,
            { st with refreshOutcomes := rest, calls := st.calls ++ [.refreshAttempt, .refreshFetch] },
            by simp [attemptRefresh, hcond, hr, ho, hn]⟩
        | some s =>
          exact ⟨true,
            { st with arkToken := some s, refreshOutcomes := rest, calls := st.calls ++ [.refreshAttempt, .refreshFetch] },
            by simp [attemptRefresh, hcond, hr, ho, hn]⟩
  · intro hr
    simp [attemptRefresh, hcond, hr]
  · intro hr
    constructor
    · intro hth
      rcases ho : nextOutcome st.refreshOutcomes with ⟨o, rest⟩
      rw [ho] at hth
      simp only at hth
      subst hth
      simp [attemptRefresh, hcond, hr, ho]
    · intro status text parsed hresp
      rcases ho : nextOutcome st.refreshOutcomes with ⟨o, rest⟩
      rw [ho] at hresp
      simp only at hresp
      subst hresp
      constructor
      · intro s hs
        refine ⟨?_, ?_⟩ <;> simp [attemptRefresh, hcond, hr, ho, hs]
      · intro hn
        simp [attemptRefresh, hcond, hr, ho, hn]

theorem claim_C3_amended_witness :
    (attemptRefresh { c3env with fetchAvailable := true } c3st).1 = .ok false := by
  have h := claim_C3_amended { c3env with fetchAvailable := true } c3st (by decide)
  have h2 := h.2.1 (by decide)
  rw [h2]

/-! ## Session Registrar (sessionManager.js lines 94-212) -/

/-- One entry of `registeredSessions.json` (line 191): the ip is deliberately not
stored locally. -/
structure RegEntry where
  username : String
  tokenUuid : String
deriving Repr, DecidableEq

/-- The on-disk remote-identifier map. -/
abbrev RegMap := List (String × RegEntry)

/-- The world outside the process: the two local JSON files and the remote store.
`remoteStore` lists the identifiers of session records that exist remotely — the
model of the remote collaborator, extended exactly when an upload has succeeded and
its identifier is known. The flags model filesystem outcomes for
`registeredSessions.json`: whether the file exists and whether reading or writing it
fails. -/
structure World where
  tokens : TokenMap
  regMap : RegMap
  regFileExists : Bool
  regReadFails : Bool
  regWriteFails : Bool
  remoteStore : List String
deriving Repr

/-- The session record built at lines 111-116. -/
structure SessionObj where
  ip : String
  username : String
  createdAt : Int
  tokenUuid : String
deriving Repr, DecidableEq

/-- The success value of `registerSession` (lines 204-210). -/
structure RegOk where
  fileId : String
  session : SessionObj
  verified : Bool
  arkStatus : Int
  arkBody : Option JsVal
deriving Repr

mutual

/-- Model of `JSON.stringify` of a parsed value, used only inside the missing-fileId error
message (line 186); a JS builtin, modelled structurally (escaping refinements are
irrelevant: no claim inspects this string). -/
def jsonStringify : JsVal → String
  | .null => "null"
  | .bool b => if b then "true" else "false"
  | .num n => toString n
  | .str s => "\"" ++ s ++ "\""
  | .arr xs => "[" ++ jsonStringifyItems xs ++ "]"
  | .obj fs => "\x7b" ++ jsonStringifyFields fs ++ "\x7d"

/-- Comma-joined stringification of array items. -/
def jsonStringifyItems : List JsVal → String
  | [] => ""
  | [x] => jsonStringify x
  | x :: y :: rest => jsonStringify x ++ "," ++ jsonStringifyItems (y :: rest)

/-- Comma-joined stringification of object fields. -/
def jsonStringifyFields : List (String × JsVal) → String
  | [] => ""
  | [p] => "\"" ++ p.1 ++ "\":" ++ jsonStringify p.2
  | p :: q :: rest =>
    "\"" ++ p.1 ++ "\":" ++ jsonStringify p.2 ++ "," ++ jsonStringifyFields (q :: rest)

end

/-- Lines 104-116 of `registerSession`: argument validation and token resolution
(`getToken` may delete an expired record from disk even on this failure path, so the
world is threaded). -/
def regValidate (tokenUuid ip : String) (now : Int) (w : World) :
    Except String SessionObj × World :=
  if tokenUuid == "" then (.error "tokenUuid (string) is required", w)
  else if ip == "" then (.error "ip (string) is required", w)
  else
    match getToken tokenUuid now w.tokens with
    | (none, tks) => (.error "Invalid or expired token", { w with tokens := tks })
    | (some tok, tks) =>
      (.ok { ip := ip, username := tok.username, createdAt := now, tokenUuid := tokenUuid },
       { w with tokens := tks })

/-- Lines 119-130: fetch availability and configuration checks (`ARKACDN_URL` is
defaulted at line 18, so only an explicitly empty override trips line 129). -/
def regEnvCheck (env : Env) (st : St) : Except String Unit :=
  if !env.fetchAvailable && !env.nodeFetchImportable then
    .error "fetch is not available and node-fetch could not be imported"
  else if env.arkacdnUrl == "" then
    .error "ARKACDN_URL is not set in environment"
  else if jsFalsyStr st.arkToken && jsFalsyStr env.refreshToken then
    .error "ARKACDN_TOKEN or ARKACDN_REFRESH_TOKEN must be set in environment"
  else .ok ()

/-- One `doUpload` invocation (lines 151-158): consumes the next upload outcome and
records the call; a transport rejection is not caught anywhere in `registerSession`,
so it propagates as a thrown error. -/
def doUpload (st : St) : Except String (Int × Option String × Option JsVal) × St :=
  match nextOutcome st.uploadOutcomes with
  | (.throws, rest) =>
    (.error "Arkacdn upload fetch rejected",
     { st with uploadOutcomes := rest, calls := st.calls ++ [.upload] })
  | (.resp status text parsed, rest) =>
    (.ok (status, text, parsed),
     { st with uploadOutcomes := rest, calls := st.calls ++ [.upload] })

/-- Lines 162-172: perform the upload; on a 401 status run one `attemptRefresh`; on
refresh success retry the upload exactly once; on refresh failure fail carrying the
401 response body text. The 401 test is applied only to the first response. -/
def uploadPhase (env : Env) (st : St) :
    Except String (Int × Option String × Option JsVal) × St :=
  match doUpload st with
  | (.error e, st1) => (.error e, st1)
  | (.ok (status, text, parsed), st1) =>
    if status == 401 then
      match attemptRefresh env st1 with
      | (.error e, st2) => (.error e, st2)
      | (.ok true, st2) => doUpload st2
      | (.ok false, st2) =>
        (.error ("Arkacdn unauthorized and refresh failed: " ++ textOrNull text), st2)
    else (.ok (status, text, parsed), st1)

/-- Lines 176-178: the error message of a non-2xx final upload response. -/
def regFailMsg (status : Int) (parsed : Option JsVal) : String :=
  match jsOr (optProp parsed "message") (optProp parsed "error") with
  | some v =>
    if jsTruthy v then "Arkacdn registration failed: " ++ jsToStr v
    else "Arkacdn registration failed: status " ++ toString status
  | none => "Arkacdn registration failed: status " ++ toString status

/-- Lines 182-185: extract the remote identifier, trying the nested then top-level
field names in priority order; only a truthy candidate counts. -/
def extractFileId (parsed : Option JsVal) : Option String :=
  match jsOr (jsOr (jsOr (jsOr (jsOr (optProp (optProp parsed "data") "fileId")
      (optProp (optProp parsed "data") "file_id")) (optProp (optProp parsed "data") "id"))
      (optProp parsed "fileId")) (optProp parsed "file_id")) (optProp parsed "id") with
  | some v => if jsTruthy v then some (jsToStr v) else none
  | none => none

/-- Line 186: the missing-fileId error message. -/
def errMissingFileId (parsed : Option JsVal) : String :=
  "Arkacdn response missing fileId; response=" ++
    jsonStringify (match parsed with
      | some v => if jsTruthy v then v else .obj []
      | none => .obj [])

/-- Lines 189-192: read the registered map (any read failure collapses to an empty
map), add the entry under the fileId, write it back; a write failure raises the
persistence error with the file unchanged. -/
def persistPhase (fileId : String) (entry : RegEntry) (w : World) :
    Except String Unit × World :=
  let m0 : RegMap := if w.regFileExists && !w.regReadFails then w.regMap else []
  if w.regWriteFails then
    (.error "Failed to persist registered sessions map", w)
  else
    (.ok (), { w with regMap := setKey m0 fileId entry, regFileExists := true })

/-- The verified flag computed by the read-back step (lines 194-211): false on a
transport rejection and when the fetched content is not truthy or has no truthy ip
field; true otherwise. The response status is never checked here. -/
def verifyValue : CallOutcome → Bool
  | .throws => false
  | .resp _ _ parsed =>
    match parsed with
    | none => false
    | some remote =>
      if jsTruthy remote then
        match getProp remote "ip" with
        | some v => jsTruthy v
        | none => false
      else false

/-- Lines 194-211 as a state transformer: the read-back GET is attempted in every run
reaching this step, and only the verified flag depends on its outcome. -/
def verifyPhase (st : St) : Bool × St :=
  (verifyValue st.verifyOutcome, { st with calls := st.calls ++ [.verifyFetch] })

/-- Lines 174-211 of `registerSession`, after the upload phase produced its final
response: fail on a non-2xx status; extract and require the fileId; record the
remote session record as existing; persist the local map entry; run the best-effort
verification and build the result. -/
def regFinish (sess : SessionObj) (status : Int) (parsed : Option JsVal)
    (w : World) (st : St) : Except String RegOk × World × St :=
  if !(respOk status) then (.error (regFailMsg status parsed), w, st)
  else
    match extractFileId parsed with
    | none => (.error (errMissingFileId parsed), w, st)
    | some fileId =>
      let w1 := { w with remoteStore := w.remoteStore ++ [fileId] }
      match persistPhase fileId { username := sess.username, tokenUuid := sess.tokenUuid } w1 with
      | (.error e, w2) => (.error e, w2, st)
      | (.ok (), w2) =>
        match verifyPhase st with
        | (verified, st1) =>
          (.ok { fileId := fileId, session := sess, verified := verified,
                 arkStatus := status, arkBody := parsed }, w2, st1)

/-- Model of `registerSession` (lines 102-212): the phases composed in source order — validate
and resolve the token, check fetch and credentials, best-effort pre-refresh (line
139, its result discarded), upload with a single refresh-and-retry on 401, then the
final response handling, persistence and read-back verification. -/
def registerSession (env : Env) (tokenUuid ip : String) (now : Int)
    (w : World) (st : St) : Except String RegOk × World × St :=
  match regValidate tokenUuid ip now w with
  | (.error e, w1) => (.error e, w1, st)
  | (.ok sess, w1) =>
    match regEnvCheck env st with
    | .error e => (.error e, w1, st)
    | .ok _ =>
      match attemptRefresh env st with
      | (.error e, st1) => (.error e, w1, st1)
      | (.ok _pre, st1) =>
        match uploadPhase env st1 with
        | (.error e, st2) => (.error e, w1, st2)
        | (.ok (status, _text, parsed), st2) => regFinish sess status parsed w1 st2

/-! ## Claims about the token store -/

/-- C1: `createToken` removes every token record owned by the username before storing
the new one, so after a second `createToken` for the same username every remaining
record for that user is the new one, and `getToken` on the old token id returns null
(the two generated uuids are distinct, as `randomUUID` guarantees). -/
theorem claim_C1 (m : TokenMap) (u : String) (d1 d2 : JsVal) (id1 id2 : String)
    (t1 t2 t : Int) (hu : u ≠ "") (hid : id1 ≠ id2) :
    ∃ m1 m2,
      createToken u d1 id1 t1 m = .ok (id1, m1) ∧
      createToken u d2 id2 t2 m1 = .ok (id2, m2) ∧
      (∀ p ∈ m2, p.2.username = u → p.1 = id2) ∧
      (getToken id1 t m2).1 = none := by
  set tk1 : TokenRec :=
    { username := u, data := d1, createdAt := t1, expiresAt := t1 + SESSION_TTL_MS } with htk1
  set m1 := setKey (m.filter (fun p => !(p.2.username == u))) id1 tk1 with hm1
  set tk2 : TokenRec :=
    { username := u, data := d2, createdAt := t2, expiresAt := t2 + SESSION_TTL_MS } with htk2
  set m2 := setKey (m1.filter (fun p => !(p.2.username == u))) id2 tk2 with hm2
  refine ⟨m1, m2, ?_, ?_, ?_, ?_⟩
  · unfold createToken
    rw [if_neg (by simpa using hu)]
  · unfold createToken
    rw [if_neg (by simpa using hu)]
  · intro p hp hpu
    rcases mem_setKey _ _ _ p hp with rfl | ⟨hpm, hpk⟩
    · rfl
    · exfalso
      have hflt := (List.mem_filter.mp hpm).2
      simp [hpu] at hflt
  · by_cases hid1 : id1 = ""
    · simp [getToken, hid1]
    · have hlk : lookupKey m2 id1 = none := by
        apply lookupKey_eq_none
        intro p hp
        rcases mem_setKey _ _ _ p hp with rfl | ⟨hpm, _⟩
        · exact fun hc => hid hc.symm
        · have hpm1 := List.mem_filter.mp hpm
          rcases mem_setKey _ _ _ p hpm1.1 with rfl | ⟨_, hpk1⟩
          · exfalso
            have hflt := hpm1.2
            simp [htk1] at hflt
          · exact hpk1
      simp [getToken, hid1, hlk]

theorem claim_C1_witness :
    ∃ m1 m2,
      createToken "alice" .null "t1" 0 [] = .ok ("t1", m1) ∧
      createToken "alice" .null "t2" 10 m1 = .ok ("t2", m2) ∧
      (∀ p ∈ m2, p.2.username = "alice" → p.1 = "t2") ∧
      (getToken "t1" 20 m2).1 = none :=
  claim_C1 [] "alice" .null .null "t1" "t2" 0 10 20 (by decide) (by decide)

/-- The stored token map after `createToken "alice"` with uuid tok1 at time 0. -/
def c2map : TokenMap :=
  [("tok1", { username := "alice", data := .null, createdAt := 0, expiresAt := 180000 })]

/-- C2 counterexample: the claim says a token stops being retrievable once
`now ≥ expiresAt`, but at exactly `now = expiresAt` (here 180000 = 0 + TTL) the code
still returns the token, because line 76 tests the strict `now > expiresAt`. -/
theorem claim_C2_counterexample :
    createToken "alice" .null "tok1" 0 [] = .ok ("tok1", c2map) ∧
    (0 + SESSION_TTL_MS ≤ (180000 : Int)) ∧
    (getToken "tok1" 180000 c2map).1 =
      some { uuid := "tok1", username := "alice", data := .null, createdAt := 0,
             expiresAt := 180000 } := by
  refine ⟨rfl, by norm_num [SESSION_TTL_MS], rfl⟩

/-- C2 amended: a token is retrievable until, and not after, `now > expiresAt`
(strictly: at `now = expiresAt` it is still returned), with
`expiresAt = creation time + 3 minutes`; a `getToken` call strictly past the boundary
deletes the token from the store as a side effect and returns null; and `getToken`
returns null for an unknown or empty id. -/
theorem claim_C2_amended (uuid : String) (now : Int) (m : TokenMap) :
    (uuid = "" → getToken uuid now m = (none, m)) ∧
    (lookupKey m uuid = none → getToken uuid now m = (none, m)) ∧
    (∀ tk, lookupKey m uuid = some tk → uuid ≠ "" →
      (now ≤ tk.expiresAt →
        (getToken uuid now m).1 =
          some { uuid := uuid, username := tk.username, data := tk.data,
                 createdAt := tk.createdAt, expiresAt := tk.expiresAt }) ∧
      (now > tk.expiresAt →
        (getToken uuid now m).1 = none ∧
        lookupKey (getToken uuid now m).2 uuid = none)) ∧
    (∀ u d id t m0, u ≠ "" →
      ∃ mp, createToken u d id t m0 = .ok (id, mp) ∧
        lookupKey mp id =
          some { username := u, data := d, createdAt := t,
                 expiresAt := t + SESSION_TTL_MS }) := by
  refine ⟨?_, ?_, ?_, ?_⟩
  · intro h
    simp [getToken, h]
  · intro h
    by_cases hq : uuid = ""
    · simp [getToken, hq]
    · simp [getToken, hq, h]
  · intro tk hlk hne
    constructor
    · intro hle
      have hnot : ¬ now > tk.expiresAt := not_lt.mpr hle
      simp [getToken, hne, hlk, hnot]
    · intro hgt
      refine ⟨by simp [getToken, hne, hlk, hgt], ?_⟩
      have h2 : (getToken uuid now m).2 = m.filter (fun p => !(p.1 == uuid)) := by
        simp [getToken, hne, hlk, hgt]
      rw [h2]
      apply lookupKey_eq_none
      intro p hp
      have := (List.mem_filter.mp hp).2
      simpa using this
  · intro u d id t m0 hu
    refine ⟨setKey (m0.filter (fun p => !(p.2.username == u))) id
      { username := u, data := d, createdAt := t, expiresAt := t + SESSION_TTL_MS },
      ?_, lookupKey_setKey_self _ _ _⟩
    unfold createToken
    rw [if_neg (by simpa using hu)]

theorem claim_C2_amended_witness :
    (getToken "tok1" 180001 c2map).1 = none ∧
    lookupKey (getToken "tok1" 180001 c2map).2 "tok1" = none := by
  have h := (claim_C2_amended "tok1" 180001 c2map).2.2.1
    { username := "alice", data := .null, createdAt := 0, expiresAt := 180000 }
    rfl (by decide)
  exact h.2 (by decide)

/-! ## Frame lemmas for the Session Registrar -/

theorem regEnvCheck_fetch (env : Env) (st : St) (h : regEnvCheck env st = .ok ()) :
    (env.fetchAvailable || env.nodeFetchImportable) = true := by
  cases ha : env.fetchAvailable <;> cases hb : env.nodeFetchImportable <;>
    simp_all [regEnvCheck]

/-- Frame specification of `attemptRefresh` when a fetch implementation is obtainable:
it returns a boolean without throwing, leaves the upload oracle and the verify outcome
untouched, and appends exactly one refreshAttempt event (plus possibly one
refreshFetch) to the trace. -/
theorem attemptRefresh_spec (env : Env) (st : St)
    (hf : (env.fetchAvailable || env.nodeFetchImportable) = true) :
    ∃ b st2, attemptRefresh env st = (.ok b, st2) ∧
      st2.uploadOutcomes = st.uploadOutcomes ∧
      st2.verifyOutcome = st.verifyOutcome ∧
      ∃ ex, st2.calls = st.calls ++ ex ∧
        ex.count .upload = 0 ∧ ex.count .refreshAttempt = 1 := by
  have hcond : (!env.fetchAvailable && !env.nodeFetchImportable) = false := by
    cases ha : env.fetchAvailable <;> cases hb : env.nodeFetchImportable <;> simp_all
  by_cases hr : jsFalsyStr env.refreshToken
  · refine ⟨false, { st with calls := st.calls ++ [.refreshAttempt] }, ?_, rfl, rfl,
      [.refreshAttempt], rfl, by decide, by decide⟩
    simp [attemptRefresh, hcond, hr]
  · rcases ho : nextOutcome st.refreshOutcomes with ⟨o, rest⟩
    cases o with
    | throws =>
      refine ⟨false,
        { st with refreshOutcomes := rest, calls := st.calls ++ [.refreshAttempt, .refreshFetch] },
        ?_, rfl, rfl, [.refreshAttempt, .refreshFetch], rfl, by decide, by decide⟩
      simp [attemptRefresh, hcond, hr, ho]
    | resp status text parsed =>
      cases hn : refreshNewToken parsed with
      | none =>
        refine ⟨respOk status,
          { st with refreshOutcomes := rest, calls := st.calls ++ [.refreshAttempt, .refreshFetch] },
          ?_, rfl, rfl, [.refreshAttempt, .refreshFetch], rfl, by decide, by decide⟩
        simp [attemptRefresh, hcond, hr, ho, hn]
      | some s =>
        refine ⟨true,
          { st with arkToken := some s, refreshOutcomes := rest, calls := st.calls ++ [.refreshAttempt, .refreshFetch] },
          ?_, rfl, rfl, [.refreshAttempt, .refreshFetch], rfl, by decide, by decide⟩
        simp [attemptRefresh, hcond, hr, ho, hn]

theorem doUpload_cons_resp (st : St) (status : Int) (t : Option String) (p : Option JsVal)
    (rest : List CallOutcome) (h : st.uploadOutcomes = .resp status t p :: rest) :
    doUpload st = (.ok (status, t, p),
      { st with uploadOutcomes := rest, calls := st.calls ++ [.upload] }) := by
  simp [doUpload, h, nextOutcome]

theorem doUpload_frame (st : St) :
    (doUpload st).2.calls = st.calls ++ [.upload] ∧
    (doUpload st).2.verifyOutcome = st.verifyOutcome := by
  rcases ho : nextOutcome st.uploadOutcomes with ⟨o, rest⟩
  cases o <;> simp [doUpload, ho]

/-- Lemma: `regFinish` performs no uploads and no refresh attempts: it appends at most one
verifyFetch event to the trace. -/
theorem regFinish_frame (sess : SessionObj) (status : Int) (parsed : Option JsVal)
    (w : World) (st : St) :
    ∃ ex, (regFinish sess status parsed w st).2.2.calls = st.calls ++ ex ∧
      ex.count .upload = 0 ∧ ex.count .refreshAttempt = 0 := by
  cases hok : respOk status with
  | false => exact ⟨[], by simp [regFinish, hok], by decide, by decide⟩
  | true =>
    cases hx : extractFileId parsed with
    | none => exact ⟨[], by simp [regFinish, hok, hx], by decide, by decide⟩
    | some fid =>
      cases hw : w.regWriteFails with
      | true =>
        exact ⟨[], by simp [regFinish, hok, hx, persistPhase, hw], by decide, by decide⟩
      | false =>
        exact ⟨[.verifyFetch],
          by simp [regFinish, hok, hx, persistPhase, hw, verifyPhase], by decide, by decide⟩

/-! ## Claims about the Session Registrar -/

/-- C4: when the token does not resolve (unknown or expired), `registerSession` with a
non-empty ip fails with the invalid-or-expired-token error and performs no remote call:
the process state, including the trace of performed calls, is untouched. -/
theorem claim_C4 (env : Env) (tokenUuid ip : String) (now : Int) (w : World) (st : St)
    (h1 : tokenUuid ≠ "") (h2 : ip ≠ "")
    (h3 : (getToken tokenUuid now w.tokens).1 = none) :
    (registerSession env tokenUuid ip now w st).1 = .error "Invalid or expired token" ∧
    (registerSession env tokenUuid ip now w st).2.2 = st := by
  rcases hgt : getToken tokenUuid now w.tokens with ⟨otok, tks⟩
  rw [hgt] at h3
  cases otok with
  | some tok => simp at h3
  | none =>
    constructor <;> simp [registerSession, regValidate, h1, h2, hgt]

/-- Fixture world with no tokens and empty local files. -/
def w0 : World :=
  { tokens := [], regMap := [], regFileExists := false, regReadFails := false,
    regWriteFails := false, remoteStore := [] }

theorem claim_C4_witness :
    (registerSession c3env "tokX" "1.2.3.4" 0 w0 c3st).1 = .error "Invalid or expired token" ∧
    (registerSession c3env "tokX" "1.2.3.4" 0 w0 c3st).2.2 = c3st :=
  claim_C4 c3env "tokX" "1.2.3.4" 0 w0 c3st (by decide) (by decide) rfl

/-- C5: when the first upload of a `registerSession` call responds 401, exactly one
further refresh attempt is made (two refresh-attempt events in the whole call,
counting the unconditional pre-refresh of line 139) and at most one retry: either the
refresh reported success and exactly two uploads were performed, or the call fails
with the unauthorized error carrying the 401 body text after exactly one upload. A
third upload never occurs. -/
theorem claim_C5 (env : Env) (tokenUuid ip : String) (now : Int) (w : World) (st : St)
    (t1 : Option String) (p1 : Option JsVal) (restUp : List CallOutcome)
    (h1 : tokenUuid ≠ "") (h2 : ip ≠ "")
    (h3 : (getToken tokenUuid now w.tokens).1.isSome = true)
    (h4 : regEnvCheck env st = .ok ())
    (h5 : st.uploadOutcomes = CallOutcome.resp 401 t1 p1 :: restUp) :
    ∃ extra, (registerSession env tokenUuid ip now w st).2.2.calls = st.calls ++ extra ∧
      extra.count .upload ≤ 2 ∧
      extra.count .refreshAttempt = 2 ∧
      (extra.count .upload = 2 ∨
        ((registerSession env tokenUuid ip now w st).1 =
            .error ("Arkacdn unauthorized and refresh failed: " ++ textOrNull t1) ∧
          extra.count .upload = 1)) := by
  rcases hgt : getToken tokenUuid now w.tokens with ⟨otok, tks⟩
  rw [hgt] at h3
  cases otok with
  | none => simp at h3
  | some tok =>
  have hval : regValidate tokenUuid ip now w =
      (.ok { ip := ip, username := tok.username, createdAt := now, tokenUuid := tokenUuid },
       { w with tokens := tks }) := by
    simp [regValidate, h1, h2, hgt]
  have hfetch := regEnvCheck_fetch env st h4
  obtain ⟨b1, st1, href1, hup1, hver1, ex1, hc1, hex1u, hex1r⟩ := attemptRefresh_spec env st hfetch
  have hdoA := doUpload_cons_resp st1 401 t1 p1 restUp (by rw [hup1, h5])
  set stA : St := { st1 with uploadOutcomes := restUp, calls := st1.calls ++ [.upload] } with hstA
  obtain ⟨b2, st2, href2, hup2, hver2, ex2, hc2, hex2u, hex2r⟩ := attemptRefresh_spec env stA hfetch
  cases b2 with
  | false =>
    have hupl : uploadPhase env st1 =
        (.error ("Arkacdn unauthorized and refresh failed: " ++ textOrNull t1), st2) := by
      simp [uploadPhase, hdoA, href2]
    have hrun : registerSession env tokenUuid ip now w st =
        (.error ("Arkacdn unauthorized and refresh failed: " ++ textOrNull t1),
         { w with tokens := tks }, st2) := by
      simp [registerSession, hval, h4, href1, hupl]
    have hcalls : st2.calls = st.calls ++ (ex1 ++ [Event.upload] ++ ex2) := by
      rw [hc2, hstA]
      simp only
      rw [hc1]
      simp [List.append_assoc]
    have hcu : (ex1 ++ [Event.upload] ++ ex2).count Event.upload = 1 := by
      simp [List.count_append, hex1u, hex2u]
    have hcr : (ex1 ++ [Event.upload] ++ ex2).count Event.refreshAttempt = 2 := by
      simp [List.count_append, hex1r, hex2r]
    refine ⟨ex1 ++ [Event.upload] ++ ex2, ?_, ?_, hcr, Or.inr ⟨?_, hcu⟩⟩
    · rw [hrun]
      exact hcalls
    · rw [hcu]
      omega
    · rw [hrun]
  | true =>
    have hupl : uploadPhase env st1 = doUpload st2 := by
      simp [uploadPhase, hdoA, href2]
    rcases hdo2 : doUpload st2 with ⟨r2, st3⟩
    have hframe3 := doUpload_frame st2
    rw [hdo2] at hframe3
    have hc3 : st3.calls = st2.calls ++ [.upload] := hframe3.1
    have hcalls : st3.calls = st.calls ++ (ex1 ++ [Event.upload] ++ ex2 ++ [Event.upload]) := by
      rw [hc3, hc2, hstA]
      simp only
      rw [hc1]
      simp [List.append_assoc]
    have hcu : (ex1 ++ [Event.upload] ++ ex2 ++ [Event.upload]).count Event.upload = 2 := by
      simp [List.count_append, hex1u, hex2u]
    have hcr : (ex1 ++ [Event.upload] ++ ex2 ++ [Event.upload]).count Event.refreshAttempt = 2 := by
      simp [List.count_append, hex1r, hex2r]
    cases r2 with
    | error e =>
      have hrun : registerSession env tokenUuid ip now w st =
          (.error e, { w with tokens := tks }, st3) := by
        simp [registerSession, hval, h4, href1, hupl, hdo2]
      refine ⟨ex1 ++ [Event.upload] ++ ex2 ++ [Event.upload], ?_, ?_, hcr, Or.inl hcu⟩
      · rw [hrun]
        exact hcalls
      · rw [hcu]
    | ok v =>
      rcases v with ⟨status2, t2, p2⟩
      have hrun : registerSession env tokenUuid ip now w st =
          regFinish { ip := ip, username := tok.username, createdAt := now, tokenUuid := tokenUuid }
            status2 p2 { w with tokens := tks } st3 := by
        simp [registerSession, hval, h4, href1, hupl, hdo2]
      obtain ⟨exF, hcF, hFu, hFr⟩ := regFinish_frame
        { ip := ip, username := tok.username, createdAt := now, tokenUuid := tokenUuid }
        status2 p2 { w with tokens := tks } st3
      refine ⟨ex1 ++ [Event.upload] ++ ex2 ++ [Event.upload] ++ exF, ?_, ?_, ?_, Or.inl ?_⟩
      · rw [hrun, hcF, hcalls]
        simp [List.append_assoc]
      · simp [List.count_append, hex1u, hex2u, hFu]
      · simp [List.count_append, hex1r, hex2r, hFr]
      · simp [List.count_append, hex1u, hex2u, hFu]

/-- Fixture world for the registrar witnesses: one live token for alice at time 0. -/
def w5 : World :=
  { tokens := [("tok1", { username := "alice", data := .null, createdAt := 0, expiresAt := 180000 })],
    regMap := [], regFileExists := false, regReadFails := false, regWriteFails := false,
    remoteStore := [] }

/-- Fixture environment with a global fetch and a refresh credential. -/
def env5 : Env :=
  { fetchAvailable := true, nodeFetchImportable := false,
    arkacdnUrl := "https://arkacdn.cloudycoding.com/api", refreshToken := some "rt" }

/-- Fixture state whose single upload outcome is a 401 and whose refresh calls all
reject (so the post-401 refresh reports failure). -/
def st5 : St :=
  { arkToken := some "at", refreshOutcomes := [.throws, .throws],
    uploadOutcomes := [.resp 401 (some "denied") none], verifyOutcome := .throws,
    calls := [] }

theorem claim_C5_witness :
    ∃ extra, (registerSession env5 "tok1" "1.2.3.4" 0 w5 st5).2.2.calls = st5.calls ++ extra ∧
      extra.count .upload ≤ 2 ∧
      extra.count .refreshAttempt = 2 ∧
      (extra.count .upload = 2 ∨
        ((registerSession env5 "tok1" "1.2.3.4" 0 w5 st5).1 =
            .error ("Arkacdn unauthorized and refresh failed: " ++ textOrNull (some "denied")) ∧
          extra.count .upload = 1)) :=
  claim_C5 env5 "tok1" "1.2.3.4" 0 w5 st5 (some "denied") none []
    (by decide) (by decide) rfl rfl rfl

/-- C6: once the upload has succeeded (2xx final response), a fileId was extracted and
the local map write succeeded, a failing read-back verification (transport rejection
or missing/absent ip field — exactly the runs with `verifyValue _ = false`) never
fails `registerSession`: the call still returns the ok result carrying the fileId,
session and remote metadata, with verified = false. -/
theorem claim_C6 (env : Env) (tokenUuid ip : String) (now : Int) (w : World) (st : St)
    (status : Int) (t1 : Option String) (p1 : Option JsVal)
    (restUp : List CallOutcome) (fid : String) (tok : Token) (tks : TokenMap)
    (h1 : tokenUuid ≠ "") (h2 : ip ≠ "")
    (h3 : getToken tokenUuid now w.tokens = (some tok, tks))
    (h4 : regEnvCheck env st = .ok ())
    (h5 : st.uploadOutcomes = CallOutcome.resp status t1 p1 :: restUp)
    (h6 : respOk status = true)
    (h7 : extractFileId p1 = some fid)
    (h8 : w.regWriteFails = false)
    (h9 : verifyValue st.verifyOutcome = false) :
    (registerSession env tokenUuid ip now w st).1 =
      .ok { fileId := fid,
            session := { ip := ip, username := tok.username, createdAt := now, tokenUuid := tokenUuid },
            verified := false, arkStatus := status, arkBody := p1 } := by
  have h401 : (status == 401) = false := by
    cases hq : status == 401 with
    | false => rfl
    | true =>
      have hst : status = 401 := by simpa using hq
      rw [hst] at h6
      exact absurd h6 (by decide)
  have hval : regValidate tokenUuid ip now w =
      (.ok { ip := ip, username := tok.username, createdAt := now, tokenUuid := tokenUuid },
       { w with tokens := tks }) := by
    simp [regValidate, h1, h2, h3]
  have hfetch := regEnvCheck_fetch env st h4
  obtain ⟨b1, st1, href1, hup1, hver1, ex1, hc1, hex1u, hex1r⟩ := attemptRefresh_spec env st hfetch
  have hdoA := doUpload_cons_resp st1 status t1 p1 restUp (by rw [hup1, h5])
  have hupl : uploadPhase env st1 = (.ok (status, t1, p1),
      { st1 with uploadOutcomes := restUp, calls := st1.calls ++ [Event.upload] }) := by
    simp [uploadPhase, hdoA, h401]
  have hrun : registerSession env tokenUuid ip now w st =
      regFinish { ip := ip, username := tok.username, createdAt := now, tokenUuid := tokenUuid }
        status p1 { w with tokens := tks }
        { st1 with uploadOutcomes := restUp, calls := st1.calls ++ [Event.upload] } := by
    simp [registerSession, hval, h4, href1, hupl]
  rw [hrun]
  simp [regFinish, h6, h7, persistPhase, h8, verifyPhase, hver1, h9]

/-- Fixture state whose single upload outcome succeeds with a fileId and whose
read-back verification rejects. -/
def st6 : St :=
  { arkToken := some "at", refreshOutcomes := [.throws],
    uploadOutcomes := [.resp 200 none (some (.obj [("fileId", .str "F1")]))],
    verifyOutcome := .throws, calls := [] }

theorem claim_C6_witness :
    (registerSession env5 "tok1" "1.2.3.4" 0 w5 st6).1 =
      .ok { fileId := "F1",
            session := { ip := "1.2.3.4", username := "alice", createdAt := 0, tokenUuid := "tok1" },
            verified := false, arkStatus := 200,
            arkBody := some (.obj [("fileId", .str "F1")]) } :=
  claim_C6 env5 "tok1" "1.2.3.4" 0 w5 st6 200 none (some (.obj [("fileId", .str "F1")])) []
    "F1" { uuid := "tok1", username := "alice", data := .null, createdAt := 0, expiresAt := 180000 }
    w5.tokens (by decide) (by decide) rfl rfl rfl (by decide) rfl rfl rfl

/-- C10: the local Remote Identifier Map write happens only after the remote upload
has succeeded, so when that write fails the call throws the persistence error while
the remote session record already exists (its identifier is in the remote store) and
the local map is unchanged, with no entry pointing to the new record — an error
outcome does not imply the remote store is unchanged. -/
theorem claim_C10 (env : Env) (tokenUuid ip : String) (now : Int) (w : World) (st : St)
    (status : Int) (t1 : Option String) (p1 : Option JsVal)
    (restUp : List CallOutcome) (fid : String) (tok : Token) (tks : TokenMap)
    (h1 : tokenUuid ≠ "") (h2 : ip ≠ "")
    (h3 : getToken tokenUuid now w.tokens = (some tok, tks))
    (h4 : regEnvCheck env st = .ok ())
    (h5 : st.uploadOutcomes = CallOutcome.resp status t1 p1 :: restUp)
    (h6 : respOk status = true)
    (h7 : extractFileId p1 = some fid)
    (h8 : w.regWriteFails = true) :
    (registerSession env tokenUuid ip now w st).1 =
      .error "Failed to persist registered sessions map" ∧
    fid ∈ (registerSession env tokenUuid ip now w st).2.1.remoteStore ∧
    (registerSession env tokenUuid ip now w st).2.1.regMap = w.regMap := by
  have h401 : (status == 401) = false := by
    cases hq : status == 401 with
    | false => rfl
    | true =>
      have hst : status = 401 := by simpa using hq
      rw [hst] at h6
      exact absurd h6 (by decide)
  have hval : regValidate tokenUuid ip now w =
      (.ok { ip := ip, username := tok.username, createdAt := now, tokenUuid := tokenUuid },
       { w with tokens := tks }) := by
    simp [regValidate, h1, h2, h3]
  have hfetch := regEnvCheck_fetch env st h4
  obtain ⟨b1, st1, href1, hup1, hver1, ex1, hc1, hex1u, hex1r⟩ := attemptRefresh_spec env st hfetch
  have hdoA := doUpload_cons_resp st1 status t1 p1 restUp (by rw [hup1, h5])
  have hupl : uploadPhase env st1 = (.ok (status, t1, p1),
      { st1 with uploadOutcomes := restUp, calls := st1.calls ++ [Event.upload] }) := by
    simp [uploadPhase, hdoA, h401]
  have hrun : registerSession env tokenUuid ip now w st =
      regFinish { ip := ip, username := tok.username, createdAt := now, tokenUuid := tokenUuid }
        status p1 { w with tokens := tks }
        { st1 with uploadOutcomes := restUp, calls := st1.calls ++ [Event.upload] } := by
    simp [registerSession, hval, h4, href1, hupl]
  rw [hrun]
  refine ⟨?_, ?_, ?_⟩ <;> simp [regFinish, h6, h7, persistPhase, h8]

/-- Fixture world whose map write fails. -/
def w10 : World := { w5 with regWriteFails := true }

theorem claim_C10_witness :
    (registerSession env5 "tok1" "1.2.3.4" 0 w10 st6).1 =
      .error "Failed to persist registered sessions map" ∧
    "F1" ∈ (registerSession env5 "tok1" "1.2.3.4" 0 w10 st6).2.1.remoteStore ∧
    (registerSession env5 "tok1" "1.2.3.4" 0 w10 st6).2.1.regMap = w10.regMap :=
  claim_C10 env5 "tok1" "1.2.3.4" 0 w10 st6 200 none (some (.obj [("fileId", .str "F1")])) []
    "F1" { uuid := "tok1", username := "alice", data := .null, createdAt := 0, expiresAt := 180000 }
    w10.tokens (by decide) (by decide) rfl rfl rfl (by decide) rfl rfl

/-! ## Session Validator (sessionManager.js lines 215-262, 298-307) -/

/-- The validator result objects (lines 242, 254 and 256). -/
structure GsResult where
  allowed : Bool
  reason : Option String
  fileId : Option String
  session : Option JsVal
deriving Repr

/-- JS strict equality of a possibly-undefined value against a string (line 253):
true exactly when the value is that string; undefined and non-string values are never
strictly equal to a string. -/
def jsStrictEqStr (v : Option JsVal) (s : String) : Bool :=
  match v with
  | some (.str t) => t == s
  | _ => false

theorem jsStrictEqStr_eq_true_iff (v : Option JsVal) (s : String) :
    jsStrictEqStr v s = true ↔ v = some (.str s) := by
  cases v with
  | none => simp [jsStrictEqStr]
  | some x => cases x <;> simp [jsStrictEqStr]

/-- Model of `unregisterSessionLocally` (lines 298-307): read the map (read failures collapse
to an empty map); when the key is present delete it and write the file back (a write
failure raises the persistence error); when absent nothing is written. -/
def unregisterSessionLocally (fileId : String) (w : World) : Except String Unit × World :=
  let m0 : RegMap := if w.regFileExists && !w.regReadFails then w.regMap else []
  if (lookupKey m0 fileId).isSome then
    if w.regWriteFails then
      (.error "Failed to persist registered sessions map", w)
    else
      (.ok (), { w with regMap := m0.filter (fun p => !(p.1 == fileId)), regFileExists := true })
  else (.ok (), w)

/-- Lines 231-257: handling of the first map entry owned by the username. The GET
uses the global fetch directly, so a missing global fetch throws; a 404 garbage
collects the entry and denies with no_session; a 400 raises the record-not-ready
error; any other non-2xx raises a fetch failure; on success the stored ip
(`sessionData.data.data.ip`) is compared to the presented ip by strict equality
(`res.json()` rejecting, or a missing nested data object, throws). -/
def gsBody (env : Env) (ip username fileId : String) (fetchOutcome : CallOutcome)
    (w : World) (st : St) : Except String (Option GsResult) × World × St :=
  if !env.fetchAvailable then
    (.error "fetch is not defined", w, st)
  else
    let st1 := { st with calls := st.calls ++ [.sessionFetch fileId] }
    match fetchOutcome with
    | .throws => (.error "session fetch rejected", w, st1)
    | .resp status _text parsed =>
      if !(respOk status) then
        if status == 404 then
          match unregisterSessionLocally fileId w with
          | (.error e, w1) => (.error e, w1, st1)
          | (.ok _, w1) =>
            (.ok (some { allowed := false, reason := some "no_session", fileId := none, session := none }), w1, st1)
        else if status == 400 then
          (.error ("No session found for username " ++ username ++ ". Maybe it hasn\x27t uploaded yet?"), w, st1)
        else
          (.error ("Arkacdn fetch failed: status " ++ toString status), w, st1)
      else
        match parsed with
        | none => (.error "session body is not JSON", w, st1)
        | some sessionData =>
          match getProp sessionData "data" with
          | none => (.error "TypeError: cannot read nested session data", w, st1)
          | some d1 =>
            match getProp d1 "data" with
            | none => (.error "TypeError: cannot read nested session data", w, st1)
            | some d2 =>
              if jsStrictEqStr (getProp d2 "ip") ip then
                (.ok (some { allowed := true, reason := none, fileId := some fileId, session := some d2 }), w, st1)
              else
                (.ok (some { allowed := false, reason := some "ip_mismatch", fileId := none, session := none }), w, st1)

/-- The for-of scan of lines 227-261: entries are visited in insertion order; entries
of other usernames are skipped; the first entry owned by the username is handled by
`gsBody` (every branch of which returns or throws); with no matching entry at all the
function falls through and returns undefined (`none`). -/
def gsLoop (env : Env) (ip username : String) (fetchOutcome : CallOutcome)
    (entries : List (String × RegEntry)) (w : World) (st : St) :
    Except String (Option GsResult) × World × St :=
  match entries with
  | [] => (.ok none, w, st)
  | (fileId, entry) :: rest =>
    if !(entry.username == username) then gsLoop env ip username fetchOutcome rest w st
    else gsBody env ip username fileId fetchOutcome w st

/-- Model of `getSessionForUsername` (lines 215-262): force a refresh first — a thrown refresh
error propagates, and a false refresh result raises the refresh-failure error before
the username and ip arguments are validated; then read `registeredSessions.json`
(this read has no fallback: a missing or unreadable file throws, line 227) and scan
its entries. -/
def getSessionForUsername (env : Env) (username ip : String)
    (fetchOutcome : CallOutcome) (w : World) (st : St) :
    Except String (Option GsResult) × World × St :=
  match attemptRefresh env st with
  | (.error e, st1) => (.error e, w, st1)
  | (.ok false, st1) => (.error "Failed to refresh Arkacdn token", w, st1)
  | (.ok true, st1) =>
    if username == "" then (.error "username (non-empty string) is required", w, st1)
    else if ip == "" then (.error "ip (non-empty string) is required", w, st1)
    else if !w.regFileExists || w.regReadFails then
      (.error "failed to read registered sessions file", w, st1)
    else gsLoop env ip username fetchOutcome w.regMap w st1

theorem gsLoop_find_some (env : Env) (ip username : String) (fo : CallOutcome)
    (w : World) (st : St) :
    ∀ entries (fileId : String) (entry : RegEntry),
      entries.find? (fun q => q.2.username == username) = some (fileId, entry) →
      gsLoop env ip username fo entries w st = gsBody env ip username fileId fo w st := by
  intro entries
  induction entries with
  | nil =>
    intro fid e h
    simp [List.find?] at h
  | cons q rest ih =>
    intro fid e h
    by_cases hq : (q.2.username == username) = true
    · simp only [List.find?, hq] at h
      injection h with h2
      subst h2
      simp [gsLoop, hq]
    · have hq2 : (q.2.username == username) = false := by
        cases h2 : q.2.username == username
        · rfl
        · exact absurd h2 hq
      simp only [List.find?, hq2] at h
      have hrec := ih fid e h
      simpa [gsLoop, hq2] using hrec

theorem gsLoop_find_none (env : Env) (ip username : String) (fo : CallOutcome)
    (w : World) (st : St) :
    ∀ entries, entries.find? (fun q => q.2.username == username) = none →
      gsLoop env ip username fo entries w st = (.ok none, w, st) := by
  intro entries
  induction entries with
  | nil =>
    intro h
    simp [gsLoop]
  | cons q rest ih =>
    intro h
    have hall := List.find?_eq_none.mp h
    have hq : (q.2.username == username) = false := by
      have := hall q (List.mem_cons_self _ _)
      simpa using this
    have hrest : rest.find? (fun q => q.2.username == username) = none :=
      List.find?_eq_none.mpr (fun x hx => hall x (List.mem_cons_of_mem _ hx))
    have hrec := ih hrest
    simpa [gsLoop, hq] using hrec

/-! ## Claims about the Session Validator -/

/-- C7: `getSessionForUsername` forces a credential refresh as its first step and
fails with the refresh-failure error whenever the refresh reports false — including
when no refresh credential is configured at all (first conjunct) — and this failure
occurs before the username and ip arguments are validated: the second conjunct holds
for every username and ip, the empty ones included. -/
theorem claim_C7 (env : Env) (username ip : String) (fo : CallOutcome)
    (w : World) (st : St) :
    (jsFalsyStr env.refreshToken = true →
      (env.fetchAvailable || env.nodeFetchImportable) = true →
      (attemptRefresh env st).1 = .ok false) ∧
    ((attemptRefresh env st).1 = .ok false →
      (getSessionForUsername env username ip fo w st).1 =
        .error "Failed to refresh Arkacdn token") := by
  constructor
  · intro hr hf
    have hcond : (!env.fetchAvailable && !env.nodeFetchImportable) = false := by
      cases ha : env.fetchAvailable <;> cases hb : env.nodeFetchImportable <;> simp_all
    simp [attemptRefresh, hcond, hr]
  · intro hres
    rcases har : attemptRefresh env st with ⟨r, st1⟩
    rw [har] at hres
    have hr2 : r = .ok false := hres
    subst hr2
    simp [getSessionForUsername, har]

theorem claim_C7_witness :
    (getSessionForUsername { c3env with fetchAvailable := true } "" "" .throws w0 c3st).1 =
      .error "Failed to refresh Arkacdn token" := by
  have h := claim_C7 { c3env with fetchAvailable := true } "" "" .throws w0 c3st
  exact h.2 (h.1 (by decide) (by decide))

/-- C8: when the remote record of the first matching Remote Identifier Map entry is
fetched successfully (2xx with a JSON body whose nested data objects are present),
`getSessionForUsername` returns the allowed result carrying the fileId and session
exactly when the remotely stored ip strictly string-equals the presented ip, and any
inequality yields the ip_mismatch denial. -/
theorem claim_C8 (env : Env) (username ip : String) (w : World) (st : St)
    (status : Int) (t : Option String) (sd d1 d2 : JsVal)
    (fid : String) (entry : RegEntry)
    (h0 : (attemptRefresh env st).1 = .ok true)
    (h1 : username ≠ "") (h2 : ip ≠ "")
    (h3 : w.regFileExists = true) (h4 : w.regReadFails = false)
    (h5 : env.fetchAvailable = true)
    (h6 : w.regMap.find? (fun q => q.2.username == username) = some (fid, entry))
    (h7 : respOk status = true)
    (h8 : getProp sd "data" = some d1)
    (h9 : getProp d1 "data" = some d2) :
    ((getSessionForUsername env username ip (.resp status t (some sd)) w st).1 =
        .ok (some { allowed := true, reason := none, fileId := some fid, session := some d2 })
      ↔ getProp d2 "ip" = some (.str ip)) ∧
    (getProp d2 "ip" ≠ some (.str ip) →
      (getSessionForUsername env username ip (.resp status t (some sd)) w st).1 =
        .ok (some { allowed := false, reason := some "ip_mismatch", fileId := none, session := none })) := by
  rcases har : attemptRefresh env st with ⟨r, st1⟩
  rw [har] at h0
  have hr : r = .ok true := h0
  subst hr
  have hloop := gsLoop_find_some env ip username (.resp status t (some sd)) w st1
    w.regMap fid entry h6
  have hrun : getSessionForUsername env username ip (.resp status t (some sd)) w st =
      gsBody env ip username fid (.resp status t (some sd)) w st1 := by
    simp [getSessionForUsername, har, h1, h2, h3, h4, hloop]
  have hnotok : (!(respOk status)) = false := by rw [h7]; rfl
  have hbody : gsBody env ip username fid (.resp status t (some sd)) w st1 =
      (if jsStrictEqStr (getProp d2 "ip") ip then
        (.ok (some { allowed := true, reason := none, fileId := some fid, session := some d2 }), w,
         { st1 with calls := st1.calls ++ [Event.sessionFetch fid] })
      else
        (.ok (some { allowed := false, reason := some "ip_mismatch", fileId := none, session := none }), w,
         { st1 with calls := st1.calls ++ [Event.sessionFetch fid] })) := by
    simp [gsBody, h5, hnotok, h8, h9]
  have hiff := jsStrictEqStr_eq_true_iff (getProp d2 "ip") ip
  constructor
  · cases hip : jsStrictEqStr (getProp d2 "ip") ip with
    | true =>
      rw [hrun, hbody, if_pos hip]
      constructor
      · intro _
        exact hiff.mp hip
      · intro _
        rfl
    | false =>
      rw [hrun, hbody, if_neg (by simp [hip])]
      constructor
      · intro hcontr
        simp at hcontr
      · intro hmem
        have hip2 := hiff.mpr hmem
        rw [hip] at hip2
        exact absurd hip2 (by decide)
  · intro hne
    have hip : jsStrictEqStr (getProp d2 "ip") ip = false := by
      cases h2 : jsStrictEqStr (getProp d2 "ip") ip
      · rfl
      · exact absurd (hiff.mp h2) hne
    rw [hrun, hbody, if_neg (by simp [hip])]

/-- Fixture world for the validator witnesses: one registered entry for alice. -/
def w8 : World :=
  { tokens := [], regMap := [("F1", { username := "alice", tokenUuid := "tok1" })],
    regFileExists := true, regReadFails := false, regWriteFails := false,
    remoteStore := ["F1"] }

/-- Fixture state whose refresh response supplies a fresh access credential. -/
def st8 : St :=
  { arkToken := some "at",
    refreshOutcomes := [.resp 200 none (some (.obj [("accessToken", .str "new")]))],
    uploadOutcomes := [], verifyOutcome := .throws, calls := [] }

/-- Fixture remote session body with the nested data.data.ip shape. -/
def sd8 : JsVal := .obj [("data", .obj [("data", .obj [("ip", .str "1.2.3.4")])])]

theorem claim_C8_witness :
    ((getSessionForUsername env5 "alice" "1.2.3.4" (.resp 200 none (some sd8)) w8 st8).1 =
        .ok (some { allowed := true, reason := none, fileId := some "F1",
                    session := some (.obj [("ip", .str "1.2.3.4")]) })
      ↔ getProp (.obj [("ip", .str "1.2.3.4")]) "ip" = some (.str "1.2.3.4")) ∧
    (getProp (.obj [("ip", .str "1.2.3.4")]) "ip" ≠ some (.str "1.2.3.4") →
      (getSessionForUsername env5 "alice" "1.2.3.4" (.resp 200 none (some sd8)) w8 st8).1 =
        .ok (some { allowed := false, reason := some "ip_mismatch", fileId := none, session := none })) :=
  claim_C8 env5 "alice" "1.2.3.4" w8 st8 200 none sd8
    (.obj [("data", .obj [("ip", .str "1.2.3.4")])]) (.obj [("ip", .str "1.2.3.4")])
    "F1" { username := "alice", tokenUuid := "tok1" }
    rfl (by decide) (by decide) rfl rfl rfl rfl (by decide) rfl rfl

/-- C9: a 404 on the session fetch removes the matched Remote Identifier Map entry
(the key no longer resolves afterwards) and returns the no_session denial; a
subsequent call whose map has no entry for the username returns the implicit
undefined result with the world untouched, so the removed entry is never re-found;
and a 400 response instead fails with the record-not-ready error, distinct from the
404 path. -/
theorem claim_C9 (env : Env) (username ip : String) (w : World) (st : St)
    (t : Option String) (p : Option JsVal) (fid : String) (entry : RegEntry)
    (h0 : (attemptRefresh env st).1 = .ok true)
    (h1 : username ≠ "") (h2 : ip ≠ "")
    (h3 : w.regFileExists = true) (h4 : w.regReadFails = false)
    (h5 : env.fetchAvailable = true)
    (h6 : w.regMap.find? (fun q => q.2.username == username) = some (fid, entry))
    (h7 : w.regWriteFails = false) :
    ((getSessionForUsername env username ip (.resp 404 t p) w st).1 =
        .ok (some { allowed := false, reason := some "no_session", fileId := none, session := none }) ∧
      lookupKey (getSessionForUsername env username ip (.resp 404 t p) w st).2.1.regMap fid = none) ∧
    (∀ (w2 : World) (st2 : St) (fo2 : CallOutcome),
      w2.regFileExists = true → w2.regReadFails = false →
      (attemptRefresh env st2).1 = .ok true →
      w2.regMap.find? (fun q => q.2.username == username) = none →
      (getSessionForUsername env username ip fo2 w2 st2).1 = .ok none ∧
      (getSessionForUsername env username ip fo2 w2 st2).2.1 = w2) ∧
    ((getSessionForUsername env username ip (.resp 400 t p) w st).1 =
      .error ("No session found for username " ++ username ++ ". Maybe it hasn\x27t uploaded yet?")) := by
  rcases har : attemptRefresh env st with ⟨r, st1⟩
  rw [har] at h0
  have hr : r = .ok true := h0
  subst hr
  have hmem : (fid, entry) ∈ w.regMap := List.mem_of_find?_eq_some h6
  have hsome : (lookupKey w.regMap fid).isSome = true := by
    have hex : (w.regMap.find? (fun q => q.1 == fid)).isSome = true := by
      rw [List.find?_isSome]
      exact ⟨(fid, entry), hmem, by simp⟩
    rcases Option.isSome_iff_exists.mp hex with ⟨x, hx⟩
    simp [lookupKey, hx]
  have hunreg : unregisterSessionLocally fid w =
      (.ok (), { w with regMap := w.regMap.filter (fun q => !(q.1 == fid)), regFileExists := true }) := by
    simp [unregisterSessionLocally, h3, h4, hsome, h7]
  have h404ok : respOk 404 = false := by decide
  have h400ok : respOk 400 = false := by decide
  refine ⟨⟨?_, ?_⟩, ?_, ?_⟩
  · have hloop := gsLoop_find_some env ip username (.resp 404 t p) w st1 w.regMap fid entry h6
    simp [getSessionForUsername, har, h1, h2, h3, h4, hloop, gsBody, h5, h404ok, hunreg]
  · have hloop := gsLoop_find_some env ip username (.resp 404 t p) w st1 w.regMap fid entry h6
    have hres : (getSessionForUsername env username ip (.resp 404 t p) w st).2.1.regMap =
        w.regMap.filter (fun q => !(q.1 == fid)) := by
      simp [getSessionForUsername, har, h1, h2, h3, h4, hloop, gsBody, h5, h404ok, hunreg]
    rw [hres]
    apply lookupKey_eq_none
    intro q hq
    have := (List.mem_filter.mp hq).2
    simpa using this
  · intro w2 st2 fo2 hw1 hw2 href hfind
    rcases har2 : attemptRefresh env st2 with ⟨r2, st2b⟩
    rw [har2] at href
    have hr2 : r2 = .ok true := href
    subst hr2
    have hloop2 := gsLoop_find_none env ip username fo2 w2 st2b w2.regMap hfind
    constructor <;> simp [getSessionForUsername, har2, h1, h2, hw1, hw2, hloop2]
  · have hloop := gsLoop_find_some env ip username (.resp 400 t p) w st1 w.regMap fid entry h6
    simp [getSessionForUsername, har, h1, h2, h3, h4, hloop, gsBody, h5, h400ok]

theorem claim_C9_witness :
    (getSessionForUsername env5 "alice" "1.2.3.4" (.resp 404 none none) w8 st8).1 =
      .ok (some { allowed := false, reason := some "no_session", fileId := none, session := none }) ∧
    lookupKey (getSessionForUsername env5 "alice" "1.2.3.4" (.resp 404 none none) w8 st8).2.1.regMap "F1" = none :=
  (claim_C9 env5 "alice" "1.2.3.4" w8 st8 none none "F1"
    { username := "alice", tokenUuid := "tok1" }
    rfl (by decide) (by decide) rfl rfl rfl rfl rfl).1

end OGProtocol
